import Mathlib

/-!
Verification of the conjual trading core.

Shallow embedding of the paper-trading ledger
(`backend/trading/engine/paper_trading.py`), the risk manager
(`backend/trading/risk/manager.py`), the Smart-DCA strategy
(`backend/trading/strategies/dca.py`) and the engine lifecycle
(`backend/trading/engine/core.py`).

Modelling conventions:
- Python `Decimal` amounts become exact rationals `ℚ`.
- Wall-clock timestamps become rational "minutes"; `datetime.utcnow()`
  is threaded in as an explicit `now` argument; `timedelta(hours=24)`
  is `24 * 60` minutes.
- The `reason` strings of `RiskValidation` are replaced by a tag
  (`RiskReason`) identifying the code branch that produced them.
- Logging and the `timestamp`/`created_at` fields (never read by the
  logic under verification) are elided.
-/

namespace Conjual

/-- Trade side, the `side` string field of `PaperTrade` ("buy"/"sell"). -/
inductive Side where
  | buy
  | sell
deriving DecidableEq, Repr

/-- Record of a simulated trade (`PaperTrade` dataclass).
The `timestamp` field is elided (never read by the core logic);
`id` keeps only the numeric trade counter from `f"paper_{n}"`. -/
structure PaperTrade where
  id : Nat
  side : Side
  amount_btc : ℚ
  price_clp : ℚ
  amount_clp : ℚ
  fee_clp : ℚ
  balance_clp_after : ℚ
  balance_btc_after : ℚ
deriving DecidableEq, Repr

/-- Paper trading portfolio state (`PaperPortfolio` dataclass),
without the `created_at` timestamp. -/
structure PaperPortfolio where
  balance_clp : ℚ
  balance_btc : ℚ
  total_invested_clp : ℚ
  total_btc_bought : ℚ
  avg_buy_price : ℚ
  trades : List PaperTrade
deriving DecidableEq, Repr

/-- `PaperPortfolio(balance_clp=initial_balance_clp)` with the dataclass
defaults for the remaining fields. -/
def PaperPortfolio.init (balance_clp : ℚ) : PaperPortfolio :=
  { balance_clp := balance_clp
    balance_btc := 0
    total_invested_clp := 0
    total_btc_bought := 0
    avg_buy_price := 0
    trades := [] }

/-- State of `PaperTradingService`: fee configuration, portfolio and
the private trade counter. -/
structure PaperTradingService where
  fee_pct : ℚ
  portfolio : PaperPortfolio
  trade_counter : Nat
deriving DecidableEq, Repr

/-- `PaperTradingService.__init__(initial_balance_clp, fee_pct)`. -/
def PaperTradingService.init (initial_balance_clp fee_pct : ℚ) : PaperTradingService :=
  { fee_pct := fee_pct
    portfolio := PaperPortfolio.init initial_balance_clp
    trade_counter := 0 }

/-- The default service: `initial_balance_clp = 20000`, `fee_pct = 0.008`. -/
def conjualInit : PaperTradingService :=
  PaperTradingService.init 20000 (8 / 1000)

/-- `btc_bought = net_amount_clp / price_clp` where
`net_amount_clp = amount_clp - fee_clp` and `fee_clp = amount_clp * fee_pct`
(execute_buy, lines 125-127). -/
def buy_btc_bought (s : PaperTradingService) (amount_clp price_clp : ℚ) : ℚ :=
  (amount_clp - amount_clp * s.fee_pct) / price_clp

/-- The `PaperTrade` record built by an accepted `execute_buy`
(lines 146-156). -/
def buy_trade (s : PaperTradingService) (amount_clp price_clp : ℚ) : PaperTrade :=
  { id := s.trade_counter + 1
    side := Side.buy
    amount_btc := buy_btc_bought s amount_clp price_clp
    price_clp := price_clp
    amount_clp := amount_clp
    fee_clp := amount_clp * s.fee_pct
    balance_clp_after := s.portfolio.balance_clp - amount_clp
    balance_btc_after := s.portfolio.balance_btc + buy_btc_bought s amount_clp price_clp }

/-- Portfolio after an accepted `execute_buy` (lines 129-157): debit
`balance_clp` by the full amount, credit `balance_btc` by `btc_bought`,
accumulate totals, and recompute `avg_buy_price` as the weighted mean
whenever the new `total_btc_bought` is positive. -/
def buy_portfolio_next (s : PaperTradingService) (amount_clp price_clp : ℚ) : PaperPortfolio :=
  { balance_clp := s.portfolio.balance_clp - amount_clp
    balance_btc := s.portfolio.balance_btc + buy_btc_bought s amount_clp price_clp
    total_invested_clp := s.portfolio.total_invested_clp + amount_clp
    total_btc_bought := s.portfolio.total_btc_bought + buy_btc_bought s amount_clp price_clp
    avg_buy_price :=
      if 0 < s.portfolio.total_btc_bought + buy_btc_bought s amount_clp price_clp then
        (s.portfolio.total_btc_bought * s.portfolio.avg_buy_price +
            buy_btc_bought s amount_clp price_clp * price_clp) /
          (s.portfolio.total_btc_bought + buy_btc_bought s amount_clp price_clp)
      else s.portfolio.avg_buy_price
    trades := s.portfolio.trades ++ [buy_trade s amount_clp price_clp] }

/-- `PaperTradingService.execute_buy(amount_clp, price_clp)`
(paper_trading.py lines 98-164): reject (return `None`, no mutation) if
`amount_clp <= 0` or `amount_clp > balance_clp`; otherwise mutate the
portfolio and return the trade record.  The mutation is modelled by
returning the updated service alongside the optional trade. -/
def execute_buy (s : PaperTradingService) (amount_clp price_clp : ℚ) :
    Option PaperTrade × PaperTradingService :=
  if amount_clp ≤ 0 then (none, s)
  else if s.portfolio.balance_clp < amount_clp then (none, s)
  else
    (some (buy_trade s amount_clp price_clp),
     { fee_pct := s.fee_pct
       portfolio := buy_portfolio_next s amount_clp price_clp
       trade_counter := s.trade_counter + 1 })

/-- `net_clp = gross_clp - fee_clp` with `gross_clp = amount_btc * price_clp`
and `fee_clp = gross_clp * fee_pct` (execute_sell, lines 193-195). -/
def sell_net_clp (s : PaperTradingService) (amount_btc price_clp : ℚ) : ℚ :=
  amount_btc * price_clp - amount_btc * price_clp * s.fee_pct

/-- The `PaperTrade` record built by an accepted `execute_sell`
(lines 203-213); its `amount_clp` field stores `net_clp`. -/
def sell_trade (s : PaperTradingService) (amount_btc price_clp : ℚ) : PaperTrade :=
  { id := s.trade_counter + 1
    side := Side.sell
    amount_btc := amount_btc
    price_clp := price_clp
    amount_clp := sell_net_clp s amount_btc price_clp
    fee_clp := amount_btc * price_clp * s.fee_pct
    balance_clp_after := s.portfolio.balance_clp + sell_net_clp s amount_btc price_clp
    balance_btc_after := s.portfolio.balance_btc - amount_btc }

/-- Portfolio after an accepted `execute_sell` (lines 197-214): debit
`balance_btc`, credit `balance_clp` by `net_clp`, append the trade;
`total_invested_clp`, `total_btc_bought` and `avg_buy_price` are untouched. -/
def sell_portfolio_next (s : PaperTradingService) (amount_btc price_clp : ℚ) : PaperPortfolio :=
  { s.portfolio with
    balance_btc := s.portfolio.balance_btc - amount_btc
    balance_clp := s.portfolio.balance_clp + sell_net_clp s amount_btc price_clp
    trades := s.portfolio.trades ++ [sell_trade s amount_btc price_clp] }

/-- `PaperTradingService.execute_sell(amount_btc, price_clp)`
(paper_trading.py lines 166-221): reject if `amount_btc <= 0` or
`amount_btc > balance_btc`; otherwise mutate and return the trade. -/
def execute_sell (s : PaperTradingService) (amount_btc price_clp : ℚ) :
    Option PaperTrade × PaperTradingService :=
  if amount_btc ≤ 0 then (none, s)
  else if s.portfolio.balance_btc < amount_btc then (none, s)
  else
    (some (sell_trade s amount_btc price_clp),
     { fee_pct := s.fee_pct
       portfolio := sell_portfolio_next s amount_btc price_clp
       trade_counter := s.trade_counter + 1 })

end Conjual

namespace Conjual

/-- Helper: an accepted buy unfolds to the explicit result pair. -/
lemma execute_buy_accept (s : PaperTradingService) (a p : ℚ)
    (h1 : ¬ a ≤ 0) (h2 : ¬ s.portfolio.balance_clp < a) :
    execute_buy s a p =
      (some (buy_trade s a p),
       { fee_pct := s.fee_pct
         portfolio := buy_portfolio_next s a p
         trade_counter := s.trade_counter + 1 }) := by
  unfold execute_buy
  rw [if_neg h1, if_neg h2]

/-- Helper: an accepted sell unfolds to the explicit result pair. -/
lemma execute_sell_accept (s : PaperTradingService) (a p : ℚ)
    (h1 : ¬ a ≤ 0) (h2 : ¬ s.portfolio.balance_btc < a) :
    execute_sell s a p =
      (some (sell_trade s a p),
       { fee_pct := s.fee_pct
         portfolio := sell_portfolio_next s a p
         trade_counter := s.trade_counter + 1 }) := by
  unfold execute_sell
  rw [if_neg h1, if_neg h2]

/-- Helper: an accepted buy returns a trade record. -/
lemma execute_buy_isSome (s : PaperTradingService) (a p : ℚ)
    (h1 : ¬ a ≤ 0) (h2 : ¬ s.portfolio.balance_clp < a) :
    (execute_buy s a p).1 ≠ none := by
  rw [execute_buy_accept s a p h1 h2]
  exact Option.some_ne_none _

/-- Helper: an accepted sell returns a trade record. -/
lemma execute_sell_isSome (s : PaperTradingService) (a p : ℚ)
    (h1 : ¬ a ≤ 0) (h2 : ¬ s.portfolio.balance_btc < a) :
    (execute_sell s a p).1 ≠ none := by
  rw [execute_sell_accept s a p h1 h2]
  exact Option.some_ne_none _

/-- C1: `execute_buy(amount, price)` returns `None` and leaves the service
unchanged iff `amount ≤ 0` or `amount > balance_clp`; and for every accepted
buy, the new quote balance is exactly the old one minus the amount. -/
theorem paper_executeBuy_spec (s : PaperTradingService) (a p : ℚ) :
    (((execute_buy s a p).1 = none ∧ (execute_buy s a p).2 = s) ↔
      (a ≤ 0 ∨ s.portfolio.balance_clp < a)) ∧
    ((execute_buy s a p).1 ≠ none →
      (execute_buy s a p).2.portfolio.balance_clp = s.portfolio.balance_clp - a) := by
  by_cases h1 : a ≤ 0
  · constructor
    · constructor
      · intro _; exact Or.inl h1
      · intro _; unfold execute_buy; rw [if_pos h1]; exact ⟨rfl, rfl⟩
    · intro hsome
      exfalso; apply hsome
      unfold execute_buy; rw [if_pos h1]
  · by_cases h2 : s.portfolio.balance_clp < a
    · constructor
      · constructor
        · intro _; exact Or.inr h2
        · intro _; unfold execute_buy; rw [if_neg h1, if_pos h2]; exact ⟨rfl, rfl⟩
      · intro hsome
        exfalso; apply hsome
        unfold execute_buy; rw [if_neg h1, if_pos h2]
    · constructor
      · constructor
        · intro hnone
          exfalso
          have := hnone.1
          rw [execute_buy_accept s a p h1 h2] at this
          exact Option.some_ne_none _ this
        · intro hor; exact absurd hor (by simp [h1, h2])
      · intro _
        rw [execute_buy_accept s a p h1 h2]
        rfl

/-- C1 witness: the theorem applied at a rejected input (negative amount)
and at an accepted input. -/
theorem paper_executeBuy_spec_witness :
    ((execute_buy conjualInit (-1) 1).1 = none ∧
      (execute_buy conjualInit (-1) 1).2 = conjualInit) ∧
    (execute_buy conjualInit 5000 1000).2.portfolio.balance_clp =
      conjualInit.portfolio.balance_clp - 5000 :=
  ⟨((paper_executeBuy_spec conjualInit (-1) 1).1).mpr (Or.inl (by norm_num)),
   (paper_executeBuy_spec conjualInit 5000 1000).2
     (execute_buy_isSome conjualInit 5000 1000 (by norm_num)
       (by norm_num [conjualInit, PaperTradingService.init, PaperPortfolio.init]))⟩

/-- C2: `execute_sell(amount, price)` returns `None` with no mutation iff
`amount ≤ 0` or `amount > balance_btc`; for every accepted sell the base
balance drops by exactly the amount and the quote balance is credited by
exactly `amount * price * (1 - fee_pct)`. -/
theorem paper_executeSell_spec (s : PaperTradingService) (a p : ℚ) :
    (((execute_sell s a p).1 = none ∧ (execute_sell s a p).2 = s) ↔
      (a ≤ 0 ∨ s.portfolio.balance_btc < a)) ∧
    ((execute_sell s a p).1 ≠ none →
      (execute_sell s a p).2.portfolio.balance_btc = s.portfolio.balance_btc - a ∧
      (execute_sell s a p).2.portfolio.balance_clp =
        s.portfolio.balance_clp + a * p * (1 - s.fee_pct)) := by
  by_cases h1 : a ≤ 0
  · constructor
    · constructor
      · intro _; exact Or.inl h1
      · intro _; unfold execute_sell; rw [if_pos h1]; exact ⟨rfl, rfl⟩
    · intro hsome
      exfalso; apply hsome
      unfold execute_sell; rw [if_pos h1]
  · by_cases h2 : s.portfolio.balance_btc < a
    · constructor
      · constructor
        · intro _; exact Or.inr h2
        · intro _; unfold execute_sell; rw [if_neg h1, if_pos h2]; exact ⟨rfl, rfl⟩
      · intro hsome
        exfalso; apply hsome
        unfold execute_sell; rw [if_neg h1, if_pos h2]
    · constructor
      · constructor
        · intro hnone
          exfalso
          have := hnone.1
          rw [execute_sell_accept s a p h1 h2] at this
          exact Option.some_ne_none _ this
        · intro hor; exact absurd hor (by simp [h1, h2])
      · intro _
        rw [execute_sell_accept s a p h1 h2]
        refine ⟨rfl, ?_⟩
        show s.portfolio.balance_clp + sell_net_clp s a p =
          s.portfolio.balance_clp + a * p * (1 - s.fee_pct)
        unfold sell_net_clp
        ring

/-- Helper: `fee_pct` is configuration, untouched by `execute_buy`. -/
lemma execute_buy_fee_pct (s : PaperTradingService) (a p : ℚ) :
    (execute_buy s a p).2.fee_pct = s.fee_pct := by
  unfold execute_buy
  split_ifs <;> rfl

/-- Helper: `fee_pct` is configuration, untouched by `execute_sell`. -/
lemma execute_sell_fee_pct (s : PaperTradingService) (a p : ℚ) :
    (execute_sell s a p).2.fee_pct = s.fee_pct := by
  unfold execute_sell
  split_ifs <;> rfl

/-- Helper: balance after an accepted buy. -/
lemma execute_buy_balance_accept (s : PaperTradingService) (a p : ℚ)
    (h1 : ¬ a ≤ 0) (h2 : ¬ s.portfolio.balance_clp < a) :
    (execute_buy s a p).2.portfolio.balance_clp = s.portfolio.balance_clp - a := by
  rw [execute_buy_accept s a p h1 h2]
  rfl

/-- Helper: cumulative bought quantity after an accepted buy. -/
lemma execute_buy_total_accept (s : PaperTradingService) (a p : ℚ)
    (h1 : ¬ a ≤ 0) (h2 : ¬ s.portfolio.balance_clp < a) :
    (execute_buy s a p).2.portfolio.total_btc_bought =
      s.portfolio.total_btc_bought + buy_btc_bought s a p := by
  rw [execute_buy_accept s a p h1 h2]
  rfl

/-- Helper: the weighted-mean update of an accepted buy, in the case where
the new cumulative bought quantity is positive. -/
lemma execute_buy_avg_accept (s : PaperTradingService) (a p : ℚ)
    (h1 : ¬ a ≤ 0) (h2 : ¬ s.portfolio.balance_clp < a)
    (hpos : 0 < s.portfolio.total_btc_bought + buy_btc_bought s a p) :
    (execute_buy s a p).2.portfolio.avg_buy_price =
      (s.portfolio.total_btc_bought * s.portfolio.avg_buy_price +
          buy_btc_bought s a p * p) /
        (s.portfolio.total_btc_bought + buy_btc_bought s a p) := by
  rw [execute_buy_accept s a p h1 h2]
  show (buy_portfolio_next s a p).avg_buy_price = _
  unfold buy_portfolio_next
  exact if_pos hpos

/-- Helper: the quantity a buy acquires is positive when the amount is
positive, the fee is below 100% and the price is positive. -/
lemma buy_btc_bought_pos (s : PaperTradingService) (a p : ℚ)
    (hA : 0 < a) (hf : s.fee_pct < 1) (hp : 0 < p) :
    0 < buy_btc_bought s a p := by
  unfold buy_btc_bought
  apply div_pos _ hp
  nlinarith

/-- Helper (pure algebra): merging one weighted-mean step of quantity
`b1 + b1` equals two successive steps of quantity `b1` each. -/
lemma weighted_mean_halves (T avg b1 p : ℚ) (hT : 0 ≤ T) (hb1 : 0 < b1) :
    (T * avg + (b1 + b1) * p) / (T + (b1 + b1)) =
      ((T + b1) * ((T * avg + b1 * p) / (T + b1)) + b1 * p) / (T + b1 + b1) := by
  have h1 : T + b1 ≠ 0 := by positivity
  have h2 : T + (b1 + b1) ≠ 0 := by positivity
  have h3 : T + b1 + b1 ≠ 0 := by positivity
  field_simp
  ring

/-- A concrete service state holding some base currency, used to witness
accepted sells. -/
def sellReady : PaperTradingService :=
  { fee_pct := 8 / 1000
    portfolio :=
      { balance_clp := 15000
        balance_btc := 2
        total_invested_clp := 5000
        total_btc_bought := 2
        avg_buy_price := 2480
        trades := [] }
    trade_counter := 1 }

/-- C2 witness: the theorem applied at a rejected input (selling with an
empty base balance) and at an accepted one. -/
theorem paper_executeSell_spec_witness :
    ((execute_sell conjualInit 1 1000).1 = none ∧
      (execute_sell conjualInit 1 1000).2 = conjualInit) ∧
    (execute_sell sellReady (1 / 2) 1000).2.portfolio.balance_btc =
      sellReady.portfolio.balance_btc - 1 / 2 :=
  ⟨((paper_executeSell_spec conjualInit 1 1000).1).mpr
     (Or.inr (by norm_num [conjualInit, PaperTradingService.init, PaperPortfolio.init])),
   ((paper_executeSell_spec sellReady (1 / 2) 1000).2
     (execute_sell_isSome sellReady (1 / 2) 1000 (by norm_num)
       (by norm_num [sellReady]))).1⟩

/-- C3: after an accepted buy (positive amount within balance, fee below
100%, positive price, nonnegative cumulative quantity) the new
`avg_buy_price` is the weighted mean
`(totalBaseBought_old * avgBuyPrice_old + baseBought * priceQuote) /
totalBaseBought_new`; every sell (accepted or rejected) leaves
`avg_buy_price` unchanged; and with exact arithmetic, buying an amount in
one call yields the same `avg_buy_price` as buying it in two equal halves
at the same price. -/
theorem avg_buy_price_weighted_mean (s : PaperTradingService) (A p : ℚ)
    (hA : 0 < A) (hbal : A ≤ s.portfolio.balance_clp)
    (hT : 0 ≤ s.portfolio.total_btc_bought)
    (hf : s.fee_pct < 1) (hp : 0 < p) :
    ((execute_buy s A p).2.portfolio.avg_buy_price =
      (s.portfolio.total_btc_bought * s.portfolio.avg_buy_price +
          buy_btc_bought s A p * p) /
        (execute_buy s A p).2.portfolio.total_btc_bought) ∧
    (∀ s2 : PaperTradingService, ∀ a q : ℚ,
      (execute_sell s2 a q).2.portfolio.avg_buy_price = s2.portfolio.avg_buy_price) ∧
    (execute_buy s A p).2.portfolio.avg_buy_price =
      (execute_buy (execute_buy s (A / 2) p).2 (A / 2) p).2.portfolio.avg_buy_price := by
  have hne1 : ¬ A ≤ 0 := not_le.mpr hA
  have hne2 : ¬ s.portfolio.balance_clp < A := not_lt.mpr hbal
  have hb : 0 < buy_btc_bought s A p := buy_btc_bought_pos s A p hA hf hp
  have hposA : 0 < s.portfolio.total_btc_bought + buy_btc_bought s A p := by linarith
  have havgA := execute_buy_avg_accept s A p hne1 hne2 hposA
  refine ⟨?_, ?_, ?_⟩
  · rw [havgA, execute_buy_total_accept s A p hne1 hne2]
  · intro s2 a q
    unfold execute_sell
    split_ifs
    · rfl
    · rfl
    · show (sell_portfolio_next s2 a q).avg_buy_price = _
      unfold sell_portfolio_next
      rfl
  · -- the two-halves path
    have hA2 : 0 < A / 2 := by linarith
    have hne1h : ¬ A / 2 ≤ 0 := not_le.mpr hA2
    have hne2h : ¬ s.portfolio.balance_clp < A / 2 := not_lt.mpr (by linarith)
    have hb1 : 0 < buy_btc_bought s (A / 2) p := buy_btc_bought_pos s (A / 2) p hA2 hf hp
    have hpos1 : 0 < s.portfolio.total_btc_bought + buy_btc_bought s (A / 2) p := by linarith
    have hfee1 : (execute_buy s (A / 2) p).2.fee_pct = s.fee_pct :=
      execute_buy_fee_pct s (A / 2) p
    have hbb1 : buy_btc_bought (execute_buy s (A / 2) p).2 (A / 2) p =
        buy_btc_bought s (A / 2) p := by
      unfold buy_btc_bought
      rw [hfee1]
    have hbal1 : (execute_buy s (A / 2) p).2.portfolio.balance_clp =
        s.portfolio.balance_clp - A / 2 :=
      execute_buy_balance_accept s (A / 2) p hne1h hne2h
    have htot1 : (execute_buy s (A / 2) p).2.portfolio.total_btc_bought =
        s.portfolio.total_btc_bought + buy_btc_bought s (A / 2) p :=
      execute_buy_total_accept s (A / 2) p hne1h hne2h
    have havg1 := execute_buy_avg_accept s (A / 2) p hne1h hne2h hpos1
    have hne2s : ¬ (execute_buy s (A / 2) p).2.portfolio.balance_clp < A / 2 := by
      rw [hbal1]
      push_neg
      linarith
    have hposs : 0 < (execute_buy s (A / 2) p).2.portfolio.total_btc_bought +
        buy_btc_bought (execute_buy s (A / 2) p).2 (A / 2) p := by
      rw [htot1, hbb1]
      linarith
    have havg2 := execute_buy_avg_accept (execute_buy s (A / 2) p).2 (A / 2) p
      hne1h hne2s hposs
    rw [havgA, havg2, hbb1, htot1, havg1]
    have hbhalf : buy_btc_bought s A p =
        buy_btc_bought s (A / 2) p + buy_btc_bought s (A / 2) p := by
      unfold buy_btc_bought
      ring
    rw [hbhalf]
    exact weighted_mean_halves s.portfolio.total_btc_bought s.portfolio.avg_buy_price
      (buy_btc_bought s (A / 2) p) p hT hb1

/-- C3 witness: the theorem applied to a first buy of 5000 at price 1000
from the default portfolio. -/
theorem avg_buy_price_weighted_mean_witness :
    ((0 : ℚ) < 5000 ∧ (5000 : ℚ) ≤ conjualInit.portfolio.balance_clp ∧
      conjualInit.fee_pct < 1) ∧
    (execute_buy conjualInit 5000 1000).2.portfolio.avg_buy_price =
      (execute_buy (execute_buy conjualInit 2500 1000).2 2500 1000).2.portfolio.avg_buy_price := by
  have h1 : (5000 : ℚ) ≤ conjualInit.portfolio.balance_clp := by
    norm_num [conjualInit, PaperTradingService.init, PaperPortfolio.init]
  have h2 : conjualInit.fee_pct < 1 := by
    norm_num [conjualInit, PaperTradingService.init]
  have h3 : (0 : ℚ) ≤ conjualInit.portfolio.total_btc_bought := by
    norm_num [conjualInit, PaperTradingService.init, PaperPortfolio.init]
  have hmain := (avg_buy_price_weighted_mean conjualInit 5000 1000
    (by norm_num) h1 h3 h2 (by norm_num)).2.2
  refine ⟨⟨by norm_num, h1, h2⟩, ?_⟩
  have h2500 : (5000 : ℚ) / 2 = 2500 := by norm_num
  rw [← h2500]
  exact hmain

/-- A single buy or sell request against the paper ledger. -/
inductive PaperOp where
  | opBuy (amount_clp price_clp : ℚ)
  | opSell (amount_btc price_clp : ℚ)
deriving DecidableEq, Repr

/-- The quoted price of a request. -/
def PaperOp.price : PaperOp → ℚ
  | opBuy _ p => p
  | opSell _ p => p

/-- Run one request against the ledger, keeping only the resulting state. -/
def apply_op (s : PaperTradingService) (op : PaperOp) : PaperTradingService :=
  match op with
  | .opBuy a p => (execute_buy s a p).2
  | .opSell a p => (execute_sell s a p).2

/-- Run a sequence of requests against the ledger. -/
def apply_ops (s : PaperTradingService) (ops : List PaperOp) : PaperTradingService :=
  ops.foldl apply_op s

/-- Helper: one request never changes the fee configuration. -/
lemma apply_op_fee_pct (s : PaperTradingService) (op : PaperOp) :
    (apply_op s op).fee_pct = s.fee_pct := by
  cases op with
  | opBuy a p => exact execute_buy_fee_pct s a p
  | opSell a p => exact execute_sell_fee_pct s a p

/-- Helper: one request preserves nonnegativity of both balances when the
fee is in `[0, 1]` and the quoted price is positive. -/
lemma apply_op_nonneg (s : PaperTradingService) (op : PaperOp)
    (hf0 : 0 ≤ s.fee_pct) (hf1 : s.fee_pct ≤ 1)
    (hq : 0 ≤ s.portfolio.balance_clp) (hb : 0 ≤ s.portfolio.balance_btc)
    (hp : 0 < op.price) :
    0 ≤ (apply_op s op).portfolio.balance_clp ∧
      0 ≤ (apply_op s op).portfolio.balance_btc := by
  cases op with
  | opBuy a p =>
      have hp' : 0 < p := hp
      show 0 ≤ (execute_buy s a p).2.portfolio.balance_clp ∧
        0 ≤ (execute_buy s a p).2.portfolio.balance_btc
      unfold execute_buy
      split_ifs with h1 h2
      · exact ⟨hq, hb⟩
      · exact ⟨hq, hb⟩
      · show 0 ≤ (buy_portfolio_next s a p).balance_clp ∧
          0 ≤ (buy_portfolio_next s a p).balance_btc
        unfold buy_portfolio_next
        have ha : 0 < a := lt_of_not_le h1
        have hbb : 0 ≤ buy_btc_bought s a p := by
          unfold buy_btc_bought
          apply div_nonneg _ hp'.le
          nlinarith
        constructor
        · show 0 ≤ s.portfolio.balance_clp - a
          linarith [not_lt.mp h2]
        · show 0 ≤ s.portfolio.balance_btc + buy_btc_bought s a p
          linarith
  | opSell a p =>
      have hp' : 0 < p := hp
      show 0 ≤ (execute_sell s a p).2.portfolio.balance_clp ∧
        0 ≤ (execute_sell s a p).2.portfolio.balance_btc
      unfold execute_sell
      split_ifs with h1 h2
      · exact ⟨hq, hb⟩
      · exact ⟨hq, hb⟩
      · show 0 ≤ (sell_portfolio_next s a p).balance_clp ∧
          0 ≤ (sell_portfolio_next s a p).balance_btc
        unfold sell_portfolio_next
        have ha : 0 < a := lt_of_not_le h1
        have hnet : 0 ≤ sell_net_clp s a p := by
          unfold sell_net_clp
          nlinarith [mul_nonneg (mul_nonneg ha.le hp'.le) (sub_nonneg.mpr hf1)]
        constructor
        · show 0 ≤ s.portfolio.balance_clp + sell_net_clp s a p
          linarith
        · show 0 ≤ s.portfolio.balance_btc - a
          linarith [not_lt.mp h2]

/-- C4: from any state with nonnegative balances, fee in `[0, 1]` and
positive quoted prices, every sequence of `execute_buy`/`execute_sell`
requests keeps both balances nonnegative. -/
theorem paper_balances_nonneg (s : PaperTradingService) (ops : List PaperOp)
    (hf0 : 0 ≤ s.fee_pct) (hf1 : s.fee_pct ≤ 1)
    (hq : 0 ≤ s.portfolio.balance_clp) (hb : 0 ≤ s.portfolio.balance_btc)
    (hp : ∀ op ∈ ops, 0 < op.price) :
    0 ≤ (apply_ops s ops).portfolio.balance_clp ∧
      0 ≤ (apply_ops s ops).portfolio.balance_btc := by
  induction ops generalizing s with
  | nil => exact ⟨hq, hb⟩
  | cons op rest ih =>
      have hstep := apply_op_nonneg s op hf0 hf1 hq hb (hp op (List.mem_cons_self op rest))
      have hf0a : 0 ≤ (apply_op s op).fee_pct := by
        rw [apply_op_fee_pct]
        exact hf0
      have hf1a : (apply_op s op).fee_pct ≤ 1 := by
        rw [apply_op_fee_pct]
        exact hf1
      exact ih (apply_op s op) hf0a hf1a hstep.1 hstep.2
        (fun o ho => hp o (List.mem_cons_of_mem op ho))

/-- A concrete request sequence used to witness the invariant theorem. -/
def demoOps : List PaperOp := [PaperOp.opBuy 5000 1000, PaperOp.opSell (1 / 2) 1000]

/-- C4 witness: the theorem applied to the default service and a concrete
buy-then-sell sequence. -/
theorem paper_balances_nonneg_witness :
    ((0 : ℚ) ≤ conjualInit.fee_pct ∧ conjualInit.fee_pct ≤ 1 ∧
      (0 : ℚ) ≤ conjualInit.portfolio.balance_clp) ∧
    0 ≤ (apply_ops conjualInit demoOps).portfolio.balance_clp ∧
      0 ≤ (apply_ops conjualInit demoOps).portfolio.balance_btc := by
  have h0 : (0 : ℚ) ≤ conjualInit.fee_pct := by
    norm_num [conjualInit, PaperTradingService.init]
  have h1 : conjualInit.fee_pct ≤ 1 := by
    norm_num [conjualInit, PaperTradingService.init]
  have h2 : (0 : ℚ) ≤ conjualInit.portfolio.balance_clp := by
    norm_num [conjualInit, PaperTradingService.init, PaperPortfolio.init]
  have h3 : (0 : ℚ) ≤ conjualInit.portfolio.balance_btc := by
    norm_num [conjualInit, PaperTradingService.init, PaperPortfolio.init]
  have h4 : ∀ op ∈ demoOps, 0 < op.price := by
    intro op hop
    rcases List.mem_cons.mp hop with h | h
    · rw [h]
      norm_num [PaperOp.price]
    · rcases List.mem_singleton.mp h with h
      rw [h]
      norm_num [PaperOp.price]
  exact ⟨⟨h0, h1, h2⟩, paper_balances_nonneg conjualInit demoOps h0 h1 h2 h3 h4⟩

/-- The code branch of `RiskManager` that produced a `RiskValidation`,
standing in for the Spanish `reason` strings of `manager.py`. -/
inductive RiskReason where
  | dailyLimit
  | cooldownActive
  | insufficientBalance
  | exceedsMinBalanceRoom
  | exceedsMaxTradePct
  | tradeTooSmall
  | buyApproved
  | insufficientBtc
  | sellingAtLoss
  | sellApproved
deriving DecidableEq, Repr

/-- Result of a risk validation check (`RiskValidation` dataclass). -/
structure RiskValidation where
  approved : Bool
  reason : RiskReason
  max_allowed_amount : Option ℚ
deriving DecidableEq, Repr

/-- State of `RiskManager`: configuration plus the cooldown/daily-limit
history.  Timestamps are rational minutes. -/
structure RiskManager where
  max_trade_pct : ℚ
  min_balance_clp : ℚ
  cooldown_minutes : ℚ
  max_daily_trades : Nat
  fee_pct : ℚ
  last_trade_time : Option ℚ
  daily_trades : List ℚ
deriving DecidableEq, Repr

/-- `RiskManager.__init__` with the source defaults
(`max_trade_pct=0.20, min_balance_clp=5000, cooldown_minutes=30,
max_daily_trades=3, fee_pct=0.008`) and empty history. -/
def RiskManager.init : RiskManager :=
  { max_trade_pct := 20 / 100
    min_balance_clp := 5000
    cooldown_minutes := 30
    max_daily_trades := 3
    fee_pct := 8 / 1000
    last_trade_time := none
    daily_trades := [] }

/-- `RiskManager._cleanup_daily_trades`: drop timestamps at or below
`now - 24h` (the code keeps `t > cutoff`). -/
def cleanup_daily_trades (rm : RiskManager) (now : ℚ) : RiskManager :=
  { rm with daily_trades := rm.daily_trades.filter (fun t => now - 24 * 60 < t) }

/-- The cooldown test of rules 2 in `validate_buy`/`validate_sell`:
`elapsed < timedelta(minutes=cooldown_minutes)` when a last trade exists. -/
def cooldown_active (rm : RiskManager) (now : ℚ) : Bool :=
  match rm.last_trade_time with
  | none => false
  | some t => decide (now - t < rm.cooldown_minutes)

/-- `fee_impact_pct = fee_amount / amount_clp if amount_clp > 0 else 0`
with `fee_amount = amount_clp * fee_pct` (manager.py lines 126-127). -/
def fee_impact_pct (fee_pct amount_clp : ℚ) : ℚ :=
  if 0 < amount_clp then (amount_clp * fee_pct) / amount_clp else 0

/-- `RiskManager.validate_buy(amount_clp, balance_clp, current_price)`
(manager.py lines 61-148): prune the daily history, then apply the five
rules in order, short-circuiting on the first failure.  The pruning
mutation is modelled by returning the updated manager. -/
def validate_buy (rm0 : RiskManager) (now amount_clp balance_clp current_price : ℚ) :
    RiskValidation × RiskManager :=
  let rm := cleanup_daily_trades rm0 now
  if rm.max_daily_trades ≤ rm.daily_trades.length then
    ({ approved := false, reason := RiskReason.dailyLimit, max_allowed_amount := none }, rm)
  else if cooldown_active rm now then
    ({ approved := false, reason := RiskReason.cooldownActive, max_allowed_amount := none }, rm)
  else if balance_clp - amount_clp < rm.min_balance_clp then
    if balance_clp - rm.min_balance_clp ≤ 0 then
      ({ approved := false, reason := RiskReason.insufficientBalance,
         max_allowed_amount := none }, rm)
    else
      ({ approved := false, reason := RiskReason.exceedsMinBalanceRoom,
         max_allowed_amount := some (balance_clp - rm.min_balance_clp) }, rm)
  else if balance_clp * rm.max_trade_pct < amount_clp then
    ({ approved := false, reason := RiskReason.exceedsMaxTradePct,
       max_allowed_amount := some (balance_clp * rm.max_trade_pct) }, rm)
  else if amount_clp < 10000 ∧ (2 : ℚ) / 100 < fee_impact_pct rm.fee_pct amount_clp then
    ({ approved := false, reason := RiskReason.tradeTooSmall, max_allowed_amount := none }, rm)
  else
    ({ approved := true, reason := RiskReason.buyApproved, max_allowed_amount := none }, rm)

/-- `RiskManager.validate_sell(amount_btc, balance_btc, current_price,
avg_buy_price)` (manager.py lines 150-217): prune, daily limit, cooldown,
base-balance check, then the unconditional loss-rejection (HODL) rule. -/
def validate_sell (rm0 : RiskManager)
    (now amount_btc balance_btc current_price avg_buy_price : ℚ) :
    RiskValidation × RiskManager :=
  let rm := cleanup_daily_trades rm0 now
  if rm.max_daily_trades ≤ rm.daily_trades.length then
    ({ approved := false, reason := RiskReason.dailyLimit, max_allowed_amount := none }, rm)
  else if cooldown_active rm now then
    ({ approved := false, reason := RiskReason.cooldownActive, max_allowed_amount := none }, rm)
  else if balance_btc < amount_btc then
    ({ approved := false, reason := RiskReason.insufficientBtc,
       max_allowed_amount := some balance_btc }, rm)
  else if current_price < avg_buy_price then
    ({ approved := false, reason := RiskReason.sellingAtLoss, max_allowed_amount := none }, rm)
  else
    ({ approved := true, reason := RiskReason.sellApproved, max_allowed_amount := none }, rm)

/-- `RiskManager.record_trade()` (manager.py lines 219-224): set
`last_trade_time` and append to the daily history. -/
def record_trade (rm : RiskManager) (now : ℚ) : RiskManager :=
  { rm with last_trade_time := some now, daily_trades := rm.daily_trades ++ [now] }

/-- A sequence of `record_trade()` calls at the given times. -/
def record_trades (rm : RiskManager) (times : List ℚ) : RiskManager :=
  times.foldl record_trade rm

/-- C5: `validate_sell` with positive amount and balance and
`current_price < avg_buy_price` is never approved, whichever rule fires
first: every branch it can take under any history rejects. -/
theorem validateSell_rejects_loss (rm : RiskManager)
    (now amount_btc balance_btc current_price avg_buy_price : ℚ)
    (hamt : 0 < amount_btc) (hbal : 0 < balance_btc)
    (hloss : current_price < avg_buy_price) :
    ((validate_sell rm now amount_btc balance_btc current_price avg_buy_price).1).approved
      = false := by
  simp only [validate_sell]
  split_ifs with h1 h2 h3
  · rfl
  · rfl
  · rfl
  · rfl

/-- Helper: pruning leaves the configuration fields untouched. -/
lemma cleanup_max_daily (rm : RiskManager) (now : ℚ) :
    (cleanup_daily_trades rm now).max_daily_trades = rm.max_daily_trades := rfl

/-- Helper: pruning leaves `min_balance_clp` untouched. -/
lemma cleanup_min_balance (rm : RiskManager) (now : ℚ) :
    (cleanup_daily_trades rm now).min_balance_clp = rm.min_balance_clp := rfl

/-- Helper: pruning leaves `max_trade_pct` untouched. -/
lemma cleanup_max_trade_pct (rm : RiskManager) (now : ℚ) :
    (cleanup_daily_trades rm now).max_trade_pct = rm.max_trade_pct := rfl

/-- Helper: pruning leaves `fee_pct` untouched. -/
lemma cleanup_fee_pct (rm : RiskManager) (now : ℚ) :
    (cleanup_daily_trades rm now).fee_pct = rm.fee_pct := rfl

/-- Helper: pruning does not affect the cooldown test. -/
lemma cooldown_active_cleanup (rm : RiskManager) (now u : ℚ) :
    cooldown_active (cleanup_daily_trades rm now) u = cooldown_active rm u := rfl

/-- Helper: recorded trades accumulate at the end of the daily history. -/
lemma record_trades_daily (rm : RiskManager) (times : List ℚ) :
    (record_trades rm times).daily_trades = rm.daily_trades ++ times := by
  induction times generalizing rm with
  | nil => simp [record_trades]
  | cons t rest ih =>
      show (record_trades (record_trade rm t) rest).daily_trades = _
      rw [ih]
      simp [record_trade]

/-- Helper: `record_trade` calls never change `max_daily_trades`. -/
lemma record_trades_config (rm : RiskManager) (times : List ℚ) :
    (record_trades rm times).max_daily_trades = rm.max_daily_trades := by
  induction times generalizing rm with
  | nil => rfl
  | cons t rest ih =>
      show (record_trades (record_trade rm t) rest).max_daily_trades = _
      rw [ih]
      rfl

/-- C5 witness: the theorem applied to a fresh risk manager at a price
below the average buy price. -/
theorem validateSell_rejects_loss_witness :
    ((0 : ℚ) < 1 ∧ (0 : ℚ) < 2 ∧ (900 : ℚ) < 1000) ∧
    ((validate_sell RiskManager.init 0 1 2 900 1000).1).approved = false :=
  ⟨⟨by norm_num, by norm_num, by norm_num⟩,
   validateSell_rejects_loss RiskManager.init 0 1 2 900 1000
     (by norm_num) (by norm_num) (by norm_num)⟩

/-- C6: after `max_daily_trades` calls to `record_trade` whose timestamps
all lie strictly inside the trailing 24-hour window, every subsequent
`validate_buy` or `validate_sell` call is rejected with the daily-limit
reason, whatever the amount, balance and price arguments are. -/
theorem daily_limit_rejects (rm : RiskManager) (times : List ℚ)
    (now amount_clp balance_clp current_price amount_btc balance_btc avg_buy_price : ℚ)
    (hlen : times.length = rm.max_daily_trades)
    (hwin : ∀ t ∈ times, now - 24 * 60 < t) :
    ((validate_buy (record_trades rm times) now amount_clp balance_clp current_price).1 =
      { approved := false, reason := RiskReason.dailyLimit, max_allowed_amount := none }) ∧
    ((validate_sell (record_trades rm times) now amount_btc balance_btc
        current_price avg_buy_price).1 =
      { approved := false, reason := RiskReason.dailyLimit, max_allowed_amount := none }) := by
  have hmax : (cleanup_daily_trades (record_trades rm times) now).max_daily_trades
      = rm.max_daily_trades := by
    rw [cleanup_max_daily, record_trades_config]
  have hflt : times.length ≤
      (cleanup_daily_trades (record_trades rm times) now).daily_trades.length := by
    have h2 : times.filter (fun t => now - 24 * 60 < t) = times :=
      List.filter_eq_self.mpr (fun t ht => decide_eq_true (hwin t ht))
    simp only [cleanup_daily_trades, record_trades_daily, List.filter_append,
      List.length_append, h2]
    omega
  have hcond : (cleanup_daily_trades (record_trades rm times) now).max_daily_trades
      ≤ (cleanup_daily_trades (record_trades rm times) now).daily_trades.length := by
    rw [hmax, ← hlen]
    exact hflt
  constructor
  · simp only [validate_buy]
    rw [if_pos hcond]
  · simp only [validate_sell]
    rw [if_pos hcond]

/-- C6 witness: with the default limit of 3, three trades recorded within
24 hours make a fourth `validate_buy` rejected with the daily-limit
reason. -/
theorem daily_limit_rejects_witness :
    (([0, 10, 20] : List ℚ).length = RiskManager.init.max_daily_trades ∧
      (∀ t ∈ ([0, 10, 20] : List ℚ), (100 : ℚ) - 24 * 60 < t)) ∧
    (validate_buy (record_trades RiskManager.init [0, 10, 20]) 100 50000 100000 100).1 =
      { approved := false, reason := RiskReason.dailyLimit, max_allowed_amount := none } := by
  have hlen : ([0, 10, 20] : List ℚ).length = RiskManager.init.max_daily_trades := rfl
  have hwin : ∀ t ∈ ([0, 10, 20] : List ℚ), (100 : ℚ) - 24 * 60 < t := by
    intro t ht
    fin_cases ht <;> norm_num
  exact ⟨⟨hlen, hwin⟩,
    (daily_limit_rejects RiskManager.init [0, 10, 20] 100 50000 100000 100 1 1 1
      hlen hwin).1⟩

/-- C10: in `validate_buy`, whenever rules 1-4 pass and the amount is
positive, the computed fee impact `(amount * fee_pct) / amount` equals
`fee_pct`; the fee-impact rule therefore fires iff
`amount < 10000 ∧ fee_pct > 2%`; and with the default `fee_pct = 0.008`
the call is approved. -/
theorem fee_impact_rule_spec (rm : RiskManager)
    (now amount_clp balance_clp current_price : ℚ)
    (hpos : 0 < amount_clp)
    (h1 : (cleanup_daily_trades rm now).daily_trades.length < rm.max_daily_trades)
    (h2 : cooldown_active rm now = false)
    (h3 : rm.min_balance_clp ≤ balance_clp - amount_clp)
    (h4 : amount_clp ≤ balance_clp * rm.max_trade_pct) :
    fee_impact_pct rm.fee_pct amount_clp = rm.fee_pct ∧
    (((validate_buy rm now amount_clp balance_clp current_price).1).reason =
        RiskReason.tradeTooSmall ↔
      (amount_clp < 10000 ∧ (2 : ℚ) / 100 < rm.fee_pct)) ∧
    (rm.fee_pct = 8 / 1000 →
      ((validate_buy rm now amount_clp balance_clp current_price).1).approved = true) := by
  have hfi : fee_impact_pct rm.fee_pct amount_clp = rm.fee_pct := by
    unfold fee_impact_pct
    rw [if_pos hpos]
    exact mul_div_cancel_left₀ rm.fee_pct (ne_of_gt hpos)
  have hc1 : ¬ rm.max_daily_trades ≤ (cleanup_daily_trades rm now).daily_trades.length :=
    not_le.mpr h1
  have hc2 : ¬ cooldown_active rm now = true := by
    rw [h2]
    exact Bool.false_ne_true
  have hc3 : ¬ balance_clp - amount_clp < rm.min_balance_clp := not_lt.mpr h3
  have hc4 : ¬ balance_clp * rm.max_trade_pct < amount_clp := not_lt.mpr h4
  have hval : (validate_buy rm now amount_clp balance_clp current_price).1 =
      if amount_clp < 10000 ∧ (2 : ℚ) / 100 < fee_impact_pct rm.fee_pct amount_clp then
        { approved := false, reason := RiskReason.tradeTooSmall, max_allowed_amount := none }
      else
        { approved := true, reason := RiskReason.buyApproved, max_allowed_amount := none } := by
    simp only [validate_buy, cleanup_max_daily, cleanup_min_balance, cleanup_max_trade_pct,
      cleanup_fee_pct, cooldown_active_cleanup]
    rw [if_neg hc1, if_neg hc2, if_neg hc3, if_neg hc4]
    split_ifs <;> rfl
  refine ⟨hfi, ?_, ?_⟩
  · rw [hval]
    by_cases hc5 : amount_clp < 10000 ∧ (2 : ℚ) / 100 < fee_impact_pct rm.fee_pct amount_clp
    · rw [if_pos hc5]
      constructor
      · intro _
        have h5 := hc5.2
        rw [hfi] at h5
        exact ⟨hc5.1, h5⟩
      · intro _
        rfl
    · rw [if_neg hc5]
      constructor
      · intro habs
        exact absurd habs (by decide)
      · intro hrhs
        exfalso
        apply hc5
        refine ⟨hrhs.1, ?_⟩
        rw [hfi]
        exact hrhs.2
  · intro hf008
    rw [hval]
    have hc5 : ¬ (amount_clp < 10000 ∧ (2 : ℚ) / 100 < fee_impact_pct rm.fee_pct amount_clp) := by
      rintro ⟨-, habs⟩
      rw [hfi, hf008] at habs
      norm_num at habs
    rw [if_neg hc5]

/-- C10 witness: a 6000-unit buy from a 50000 balance on a fresh default
manager passes rules 1-4 and is approved, the default fee being 0.8%. -/
theorem fee_impact_rule_spec_witness :
    ((0 : ℚ) < 6000 ∧
      (cleanup_daily_trades RiskManager.init 0).daily_trades.length <
        RiskManager.init.max_daily_trades ∧
      RiskManager.init.fee_pct = 8 / 1000) ∧
    fee_impact_pct RiskManager.init.fee_pct 6000 = RiskManager.init.fee_pct ∧
    ((validate_buy RiskManager.init 0 6000 50000 100).1).approved = true := by
  have hpos : (0 : ℚ) < 6000 := by norm_num
  have h1 : (cleanup_daily_trades RiskManager.init 0).daily_trades.length <
      RiskManager.init.max_daily_trades := by
    simp [cleanup_daily_trades, RiskManager.init]
  have h2 : cooldown_active RiskManager.init 0 = false := rfl
  have h3 : RiskManager.init.min_balance_clp ≤ (50000 : ℚ) - 6000 := by
    norm_num [RiskManager.init]
  have h4 : (6000 : ℚ) ≤ 50000 * RiskManager.init.max_trade_pct := by
    norm_num [RiskManager.init]
  have hmain := fee_impact_rule_spec RiskManager.init 0 6000 50000 100 hpos h1 h2 h3 h4
  exact ⟨⟨hpos, h1, rfl⟩, hmain.1, hmain.2.2 rfl⟩

/-- `Signal` enum of `strategies/base.py`. -/
inductive Signal where
  | buy
  | sell
  | hold
deriving DecidableEq, Repr

/-- `TradeSignal` produced by a strategy (`strategies/base.py`). -/
structure TradeSignal where
  signal : Signal
  confidence : ℚ
  suggested_amount_pct : ℚ
  suggested_price : Option ℚ
deriving DecidableEq, Repr

/-- Configuration of `SmartDCAStrategy` (`strategies/dca.py`). -/
structure SmartDCAStrategy where
  dca_interval_hours : ℚ
  rsi_overbought : ℚ
  rsi_oversold : ℚ
  base_amount_pct : ℚ
  accelerate_amount_pct : ℚ
deriving DecidableEq, Repr

/-- `SmartDCAStrategy.__init__` defaults: interval 72h, RSI bands 70/30,
base 10%, acceleration 15%. -/
def SmartDCAStrategy.default : SmartDCAStrategy :=
  { dca_interval_hours := 72
    rsi_overbought := 70
    rsi_oversold := 30
    base_amount_pct := 10 / 100
    accelerate_amount_pct := 15 / 100 }

/-- `SmartDCAStrategy.analyze(ohlcv, portfolio, indicators)` decision
logic (dca.py lines 49-119), given the RSI taken from the indicators,
the current closing price, and the result of the time-dependent
`_is_dca_time()` test passed in as a boolean oracle.  The portfolio
snapshot is read but never influences the returned signal. -/
def analyze (st : SmartDCAStrategy) (rsi current_price : ℚ) (dca_due : Bool) : TradeSignal :=
  if st.rsi_overbought < rsi then
    { signal := Signal.hold
      confidence := 8 / 10
      suggested_amount_pct := 0
      suggested_price := none }
  else if rsi < st.rsi_oversold then
    { signal := Signal.buy
      confidence := 85 / 100
      suggested_amount_pct := min (st.base_amount_pct + st.accelerate_amount_pct) (25 / 100)
      suggested_price := some current_price }
  else if dca_due then
    { signal := Signal.buy
      confidence := 7 / 10
      suggested_amount_pct := st.base_amount_pct
      suggested_price := some current_price }
  else
    { signal := Signal.hold
      confidence := 6 / 10
      suggested_amount_pct := 0
      suggested_price := none }

/-- C7: with the default configuration, for every RSI ≥ 0, price and DCA
timing: `rsi > 70` yields `Hold`; `rsi < 30` yields `Buy` with
`suggested_amount_pct = min(base + accelerate, 0.25) ≤ 0.25`; and for
every configuration and input the strategy never returns `Sell`. -/
theorem smart_dca_analyze_spec (rsi current_price : ℚ) (dca_due : Bool) (h0 : 0 ≤ rsi) :
    (70 < rsi →
      (analyze SmartDCAStrategy.default rsi current_price dca_due).signal = Signal.hold) ∧
    (rsi < 30 →
      (analyze SmartDCAStrategy.default rsi current_price dca_due).signal = Signal.buy ∧
      (analyze SmartDCAStrategy.default rsi current_price dca_due).suggested_amount_pct =
        min (SmartDCAStrategy.default.base_amount_pct +
          SmartDCAStrategy.default.accelerate_amount_pct) (25 / 100) ∧
      (analyze SmartDCAStrategy.default rsi current_price dca_due).suggested_amount_pct
        ≤ 25 / 100) ∧
    (∀ st : SmartDCAStrategy, (analyze st rsi current_price dca_due).signal ≠ Signal.sell) := by
  refine ⟨?_, ?_, ?_⟩
  · intro h
    unfold analyze
    rw [if_pos (show SmartDCAStrategy.default.rsi_overbought < rsi from h)]
  · intro h
    have h1 : ¬ SmartDCAStrategy.default.rsi_overbought < rsi := by
      show ¬ (70 : ℚ) < rsi
      linarith
    have h2 : rsi < SmartDCAStrategy.default.rsi_oversold := h
    unfold analyze
    rw [if_neg h1, if_pos h2]
    exact ⟨rfl, rfl, min_le_right _ _⟩
  · intro st
    unfold analyze
    split_ifs <;> simp

/-- C7 witness: the theorem applied at an oversold RSI of 20. -/
theorem smart_dca_analyze_spec_witness :
    ((0 : ℚ) ≤ 20 ∧ (20 : ℚ) < 30) ∧
    (analyze SmartDCAStrategy.default 20 100 false).signal = Signal.buy ∧
    (analyze SmartDCAStrategy.default 20 100 false).suggested_amount_pct ≤ 25 / 100 := by
  have hmain := (smart_dca_analyze_spec 20 100 false (by norm_num)).2.1 (by norm_num)
  exact ⟨⟨by norm_num, by norm_num⟩, hmain.1, hmain.2.2⟩

/-- `EngineState` enum (`engine/core.py`). -/
inductive EngineState where
  | stopped
  | starting
  | running
  | paused
  | stopping
  | error
deriving DecidableEq, Repr

/-- The fields of `TradingEngine` that `start()` reads or writes:
lifecycle state, selected strategy id, mode flag and loop flag.  The
collaborator components and statistics are elided. -/
structure Engine where
  state : EngineState
  current_strategy : Option String
  paper_trading : Bool
  should_run : Bool
deriving DecidableEq, Repr

/-- `TradingEngine.__init__`: stopped, no strategy, paper mode. -/
def Engine.init : Engine :=
  { state := EngineState.stopped
    current_strategy := none
    paper_trading := true
    should_run := false }

/-- The only strategy id `_initialize_components` accepts (core.py 157). -/
def smartDcaId : String := "smart_dca"

/-- A strategy id unknown to `_initialize_components`. -/
def unknownStrategyId : String := "grid"

/-- `TradingEngine.start(strategy, paper_trading)` (core.py lines 84-128)
with the server setting `settings.TRADING_ENABLED` passed explicitly:
reject when not in `{stopped, error}`; reject real trading when disabled;
otherwise move to `starting`, record the strategy and flags, then
initialize components — which raises for an unknown strategy id, caught
and turned into the `error` state with a `false` return — and on success
move to `running` and return `true`. -/
def Engine.start (e : Engine) (strategy : String) (paper_trading trading_enabled : Bool) :
    Bool × Engine :=
  if ¬ (e.state = EngineState.stopped ∨ e.state = EngineState.error) then (false, e)
  else if paper_trading = false ∧ trading_enabled = false then (false, e)
  else
    let e1 : Engine :=
      { e with
        state := EngineState.starting
        current_strategy := some strategy
        paper_trading := paper_trading
        should_run := true }
    if strategy = smartDcaId then (true, { e1 with state := EngineState.running })
    else (false, { e1 with state := EngineState.error })

/-- C8 counterexample: `start` with an unknown strategy id from the
`stopped` state returns `false` but does NOT leave the engine state
unchanged — the state moves to `error`. -/
theorem start_unknown_strategy_counterexample :
    (Engine.start Engine.init unknownStrategyId true true).1 = false ∧
    Engine.init.state = EngineState.stopped ∧
    (Engine.start Engine.init unknownStrategyId true true).2.state = EngineState.error ∧
    (Engine.start Engine.init unknownStrategyId true true).2 ≠ Engine.init := by
  refine ⟨?_, rfl, ?_, ?_⟩ <;> decide

/-- C8 amended: every failing `start()` returns `false`; a call from a
state outside `{stopped, error}`, or with real trading requested while
disabled, leaves the engine unchanged; a call with an unknown strategy id
returns `false` but sets the state to `error` and records the requested
strategy id. -/
theorem start_failure_spec (e : Engine) (strategy : String) (pt enabled : Bool) :
    (¬ (e.state = EngineState.stopped ∨ e.state = EngineState.error) →
      Engine.start e strategy pt enabled = (false, e)) ∧
    ((e.state = EngineState.stopped ∨ e.state = EngineState.error) →
      pt = false → enabled = false →
      Engine.start e strategy pt enabled = (false, e)) ∧
    ((e.state = EngineState.stopped ∨ e.state = EngineState.error) →
      ¬ (pt = false ∧ enabled = false) → strategy ≠ smartDcaId →
      (Engine.start e strategy pt enabled).1 = false ∧
      (Engine.start e strategy pt enabled).2.state = EngineState.error ∧
      (Engine.start e strategy pt enabled).2.current_strategy = some strategy) := by
  refine ⟨?_, ?_, ?_⟩
  · intro h
    unfold Engine.start
    rw [if_pos h]
  · intro h hpt hen
    unfold Engine.start
    rw [if_neg (not_not_intro h), if_pos ⟨hpt, hen⟩]
  · intro h hmode hstrat
    simp only [Engine.start]
    rw [if_neg (not_not_intro h), if_neg hmode, if_neg hstrat]
    exact ⟨rfl, rfl, rfl⟩

/-- C8 witness: the amended theorem applied to a paper-mode `start` with
an unknown strategy id from the initial (stopped) engine. -/
theorem start_failure_spec_witness :
    (Engine.init.state = EngineState.stopped ∧ unknownStrategyId ≠ smartDcaId) ∧
    (Engine.start Engine.init unknownStrategyId true true).1 = false ∧
    (Engine.start Engine.init unknownStrategyId true true).2.state = EngineState.error := by
  have hmain := (start_failure_spec Engine.init unknownStrategyId true true).2.2
    (Or.inl rfl) (by decide) (by decide)
  exact ⟨⟨rfl, by decide⟩, hmain.1, hmain.2.1⟩

/-- C9: the end-to-end paper scenario — starting from the default 20000
balance with fee 0.8%, buying 5000 at price 90000000 yields fee 40, net
4960, `base bought = 4960 / 90000000`, quote balance 15000 and average
buy price 90000000, in exact arithmetic. -/
theorem paper_buy_scenario :
    ((execute_buy conjualInit 5000 90000000).1).map PaperTrade.fee_clp = some 40 ∧
    ((execute_buy conjualInit 5000 90000000).1).map
      (fun t => t.amount_clp - t.fee_clp) = some 4960 ∧
    ((execute_buy conjualInit 5000 90000000).1).map PaperTrade.amount_btc =
      some (4960 / 90000000) ∧
    (execute_buy conjualInit 5000 90000000).2.portfolio.balance_clp = 15000 ∧
    (execute_buy conjualInit 5000 90000000).2.portfolio.avg_buy_price = 90000000 := by
  have hacc := execute_buy_accept conjualInit 5000 90000000 (by norm_num)
    (by norm_num [conjualInit, PaperTradingService.init, PaperPortfolio.init])
  rw [hacc]
  refine ⟨?_, ?_, ?_, ?_, ?_⟩ <;>
    norm_num [buy_trade, buy_portfolio_next, buy_btc_bought, conjualInit,
      PaperTradingService.init, PaperPortfolio.init]

end Conjual
